import Mathlib

/-!
Shallow embedding of the `kml` crate's writer (`src/writer.rs`) and the parts
of its document model that the writer consumes.

The writer emits a sequence of XML events (`Start`, `Text`, `End`, plus one
raw byte write in `write_simple_data`) through a `quick_xml::Writer`.  We
model an event trace as `List XEvent` and the byte output as the rendering
of that trace.  String-keyed attribute maps (`HashMap<String, String>`) are
modelled as association lists in iteration order: iterating the same
unchanged Rust map instance twice yields the same order, so a fixed list
per node captures exactly what two encodings of the same tree observe.

The crate is generic over the coordinate scalar `T: CoordType + Display`;
style and link numeric fields are `f64` and integer fields are `i32`.  The
embedding is parameterized by the scalar types `T` and `F` together with
their `Display` renderings `ts : T → String` and `fs : F → String`; `i32`
is modelled as `Int` with decimal `toString`, which agrees with Rust's
`i32` `Display`.
-/

namespace KmlLib

/-- Attribute list of a node, in the iteration order of the underlying
`HashMap<String, String>` instance (keys unique). -/
abbrev Attrs := List (String × String)

/-- XML writer events as produced by `quick_xml`: `Start` with attributes,
`Text`, `End`, and a raw byte write (used only by `write_simple_data`). -/
inductive XEvent where
  | startE (tag : String) (attrs : Attrs)
  | textE (s : String)
  | endE (tag : String)
  | rawE (s : String)
deriving DecidableEq, Repr

/-- XML entity escaping applied by `quick_xml` to text content
(`BytesText::from_plain_str`) and to attribute values. -/
def escChar (c : Char) : String :=
  if c = '&' then "&amp;"
  else if c = '<' then "&lt;"
  else if c = '>' then "&gt;"
  else if c = '\'' then "&apos;"
  else if c = '"' then "&quot;"
  else String.singleton c

/-- Escape a whole string, character by character. -/
def escape (s : String) : String :=
  String.join (s.toList.map escChar)

/-- Rendering of an attribute list on an opening tag. -/
def renderAttrs (attrs : Attrs) : String :=
  String.join (attrs.map fun kv => " " ++ kv.1 ++ "=\"" ++ escape kv.2 ++ "\"")

/-- Byte rendering of one writer event. -/
def renderEvent : XEvent → String
  | .startE tag attrs => "<" ++ tag ++ renderAttrs attrs ++ ">"
  | .textE s => escape s
  | .endE tag => "</" ++ tag ++ ">"
  | .rawE s => s

/-- Byte rendering of a whole event trace, in write order. -/
def render : List XEvent → String
  | [] => ""
  | e :: es => renderEvent e ++ render es

/-- Altitude mode enumeration (`types/altitude_mode.rs`, not under `src/`).
Modelled from the spec: enum values render in their schema-defined
lower-camel-case form, e.g. `relativeToGround`, `clampToGround`. -/
inductive AltitudeMode where
  | clampToGround
  | relativeToGround
  | absolute
deriving DecidableEq, Repr

/-- Display form of an altitude mode. -/
def AltitudeMode.str : AltitudeMode → String
  | .clampToGround => "clampToGround"
  | .relativeToGround => "relativeToGround"
  | .absolute => "absolute"

/-- Color mode enumeration (style types file is not under `src/`).
Modelled from the spec: schema-defined lower-case string forms. -/
inductive ColorMode where
  | defaultMode
  | normal
  | random
deriving DecidableEq, Repr

/-- Display form of a color mode. -/
def ColorMode.str : ColorMode → String
  | .defaultMode => "default"
  | .normal => "normal"
  | .random => "random"

/-- Refresh mode enumeration (link types file is not under `src/`).
Modelled from the spec: schema-defined lower-camel-case forms. -/
inductive RefreshMode where
  | onChange
  | onExpire
  | onInterval
deriving DecidableEq, Repr

/-- Display form of a refresh mode. -/
def RefreshMode.str : RefreshMode → String
  | .onChange => "onChange"
  | .onExpire => "onExpire"
  | .onInterval => "onInterval"

/-- View refresh mode enumeration (link types file is not under `src/`).
Modelled from the spec: schema-defined lower-camel-case forms. -/
inductive ViewRefreshMode where
  | never
  | onRequest
  | onStop
  | onRegion
deriving DecidableEq, Repr

/-- Display form of a view refresh mode. -/
def ViewRefreshMode.str : ViewRefreshMode → String
  | .never => "never"
  | .onRequest => "onRequest"
  | .onStop => "onStop"
  | .onRegion => "onRegion"

/-- Hot-spot units enumeration (style types file is not under `src/`).
Modelled from the spec: schema-defined lower-camel-case forms. -/
inductive Units where
  | fraction
  | pixels
  | insetPixels
deriving DecidableEq, Repr

/-- Display form of a units value. -/
def Units.str : Units → String
  | .fraction => "fraction"
  | .pixels => "pixels"
  | .insetPixels => "insetPixels"

/-- Rust's `bool::to_string()` (`Display` for `bool`), used verbatim by
`write_poly_style` for the `fill` and `outline` fields. -/
def rustBoolStr (b : Bool) : String :=
  if b then "true" else "false"

/-- Generic coordinate triple `Coord<T>` with optional `z`
(`types/coord.rs`, not under `src/`). -/
structure Coord (T : Type) where
  x : T
  y : T
  z : Option T
deriving DecidableEq, Repr

/-- Display form of a coordinate.  Modelled from the spec: `Coord<T>` is
"formatted as `x,y` or `x,y,z`" — comma-joined components with `z`
optional (`types/coord.rs` is not under `src/`). -/
def Coord.str {T : Type} (ts : T → String) (c : Coord T) : String :=
  match c.z with
  | some z => ts c.x ++ "," ++ ts c.y ++ "," ++ ts z
  | none => ts c.x ++ "," ++ ts c.y

/-- Shared geometry property bundle `GeomProps<T>` (`types/geom_props.rs`,
fields as consumed by `write_geom_props`). -/
structure GeomProps (T : Type) where
  coords : List (Coord T)
  altitudeMode : AltitudeMode
  extrude : Bool
  tessellate : Bool
deriving DecidableEq, Repr

/-- `Point<T>`, fields as consumed by `write_point`. -/
structure Point (T : Type) where
  coord : Coord T
  extrude : Bool
  altitudeMode : AltitudeMode
deriving DecidableEq, Repr

/-- `LineString<T>`, fields as consumed by `write_line_string`. -/
structure LineString (T : Type) where
  coords : List (Coord T)
  altitudeMode : AltitudeMode
  extrude : Bool
  tessellate : Bool
deriving DecidableEq, Repr

/-- `LinearRing<T>`, fields as consumed by `write_linear_ring`. -/
structure LinearRing (T : Type) where
  coords : List (Coord T)
  altitudeMode : AltitudeMode
  extrude : Bool
  tessellate : Bool
deriving DecidableEq, Repr

/-- `Polygon<T>`, fields as consumed by `write_polygon`: one outer ring,
zero or more inner rings, geometry flags, and tag attributes. -/
structure Polygon (T : Type) where
  outer : LinearRing T
  inner : List (LinearRing T)
  extrude : Bool
  tessellate : Bool
  altitudeMode : AltitudeMode
  attrs : Attrs
deriving DecidableEq, Repr

/-- `Scale<T>`, fields as consumed by `write_scale`. -/
structure Scale (T : Type) where
  x : T
  y : T
  z : T
deriving DecidableEq, Repr

/-- `Orientation<T>`, fields as consumed by `write_orientation`. -/
structure Orientation (T : Type) where
  roll : T
  tilt : T
  heading : T
deriving DecidableEq, Repr

/-- `Location<T>`, fields as consumed by `write_location`. -/
structure Location (T : Type) where
  longitude : T
  latitude : T
  altitude : T
deriving DecidableEq, Repr

/-- Generic fallback `Element`: free-form name, attributes, optional text
content and ordered children. -/
inductive Element where
  | mk (name : String) (attrs : Attrs) (content : Option String)
      (children : List Element)

/-- Name of a generic element. -/
def Element.name : Element → String
  | .mk n _ _ _ => n

/-- Attributes of a generic element. -/
def Element.attrs : Element → Attrs
  | .mk _ a _ _ => a

/-- Optional text content of a generic element. -/
def Element.content : Element → Option String
  | .mk _ _ c _ => c

/-- Children of a generic element. -/
def Element.children : Element → List Element
  | .mk _ _ _ cs => cs

/-- Geometry variants (`types/geometry.rs`, not under `src/`).  The five
schema variants are dispatched by `write_geometry`; its wildcard arm
`_ => Ok(())` shows the enum has at least one further variant.  The extra
variant is modelled from the spec: the generic fallback `Element`, the
"geometry variant not covered by the dispatcher" of §4.2/§9. -/
inductive Geometry (T : Type) where
  | point (p : Point T)
  | lineString (l : LineString T)
  | linearRing (l : LinearRing T)
  | polygon (p : Polygon T)
  | multiGeometry (geometries : List (Geometry T)) (attrs : Attrs)
  | element (e : Element)

/-- `MultiGeometry<T>` (`src/types/multi_geometry.rs`): an ordered list of
nested geometries plus tag attributes. -/
structure MultiGeometry (T : Type) where
  geometries : List (Geometry T)
  attrs : Attrs

/-- `Placemark<T>`, fields as consumed by `write_placemark`: optional name
and description, ordered generic children, optional geometry. -/
structure Placemark (T : Type) where
  name : Option String
  description : Option String
  children : List Element
  geometry : Option (Geometry T)

/-- Simple `Icon` (href only), as consumed by `write_icon`. -/
structure Icon where
  href : String
deriving DecidableEq, Repr

/-- Hot-spot vector, fields as consumed by `write_icon_style` (`x`/`y` are
`f64`, modelled by the scalar parameter `F`). -/
structure Vec2 (F : Type) where
  x : F
  y : F
  xunits : Units
  yunits : Units
deriving DecidableEq, Repr

/-- `BalloonStyle`, fields as consumed by `write_balloon_style`. -/
structure BalloonStyle where
  id : String
  bgColor : Option String
  textColor : String
  text : Option String
  display : Bool
deriving DecidableEq, Repr

/-- `IconStyle`, fields as consumed by `write_icon_style`. -/
structure IconStyle (F : Type) where
  id : String
  scale : F
  heading : F
  hotSpot : Option (Vec2 F)
  color : String
  colorMode : ColorMode
  icon : Icon
deriving DecidableEq, Repr

/-- `LabelStyle`, fields as consumed by `write_label_style`. -/
structure LabelStyle (F : Type) where
  id : String
  color : String
  colorMode : ColorMode
  scale : F
deriving DecidableEq, Repr

/-- `LineStyle`, fields as consumed by `write_line_style`. -/
structure LineStyle (F : Type) where
  id : String
  color : String
  colorMode : ColorMode
  width : F
deriving DecidableEq, Repr

/-- `PolyStyle`, fields as consumed by `write_poly_style`.  The `fill` and
`outline` fields are the crate's boolean fields (spec §4.2: boolean
fields; the style types file is not under `src/`). -/
structure PolyStyle where
  id : String
  color : String
  colorMode : ColorMode
  fill : Bool
  outline : Bool
deriving DecidableEq, Repr

/-- `ListStyle`, fields as consumed by `write_list_style`
(`max_snippet_lines` is an integer, modelled as `Int`). -/
structure ListStyle where
  id : String
  bgColor : String
  maxSnippetLines : Int
deriving DecidableEq, Repr

/-- `Style` aggregate, fields as consumed by `write_style`. -/
structure Style (F : Type) where
  id : String
  balloon : Option BalloonStyle
  icon : Option (IconStyle F)
  label : Option (LabelStyle F)
  line : Option (LineStyle F)
  poly : Option PolyStyle
  list : Option ListStyle
deriving DecidableEq, Repr

/-- `Pair`, fields as consumed by `write_pair`. -/
structure Pair where
  attrs : Attrs
  key : String
  styleUrl : String
deriving DecidableEq, Repr

/-- `StyleMap`, fields as consumed by `write_style_map`. -/
structure StyleMap where
  id : String
  pairs : List Pair
deriving DecidableEq, Repr

/-- `Link`, fields as consumed by `write_link`: five optional fields and
three numeric fields with hard defaults (`refresh_interval`,
`view_refresh_time`, `view_bound_scale`, all `f64`, modelled by `F`). -/
structure Link (F : Type) where
  attrs : Attrs
  href : Option String
  refreshMode : Option RefreshMode
  refreshInterval : F
  viewRefreshMode : Option ViewRefreshMode
  viewRefreshTime : F
  viewBoundScale : F
  viewFormat : Option String
  httpQuery : Option String
deriving DecidableEq, Repr

/-- Link-type `Icon` (`LinkTypeIcon`), fields as consumed by
`write_link_type_icon`; same field set as `Link`. -/
structure LinkTypeIcon (F : Type) where
  attrs : Attrs
  href : Option String
  refreshMode : Option RefreshMode
  refreshInterval : F
  viewRefreshMode : Option ViewRefreshMode
  viewRefreshTime : F
  viewBoundScale : F
  viewFormat : Option String
  httpQuery : Option String
deriving DecidableEq, Repr

/-- `Alias`, fields as consumed by `write_alias`. -/
structure Alias where
  attrs : Attrs
  targetHref : Option String
  sourceHref : Option String
deriving DecidableEq, Repr

/-- `ResourceMap`, fields as consumed by `write_resource_map`. -/
structure ResourceMap where
  attrs : Attrs
  aliases : List Alias
deriving DecidableEq, Repr

/-- `SimpleData`, fields as consumed by `write_simple_data`. -/
structure SimpleData where
  attrs : Attrs
  value : String
deriving DecidableEq, Repr

/-- `SimpleArrayData`, fields as consumed by `write_simple_array_data`. -/
structure SimpleArrayData where
  attrs : Attrs
  values : List String
deriving DecidableEq, Repr

/-- `SchemaData`, fields as consumed by `write_schema_data`. -/
structure SchemaData where
  attrs : Attrs
  data : List SimpleData
  arrays : List SimpleArrayData
deriving DecidableEq, Repr

/-- The `Kml<T>` tagged union (`types/kml.rs`, variants as dispatched by
`write_kml`).  `KmlDocument`, `Document` and `Folder` carry attributes and
an ordered child list; the scalar parameters are the coordinate scalar `T`
and the `f64` scalar `F` of styles and links. -/
inductive Kml (T F : Type) where
  | kmlDocument (attrs : Attrs) (elements : List (Kml T F))
  | scale (s : Scale T)
  | orientation (o : Orientation T)
  | point (p : Point T)
  | location (l : Location T)
  | lineString (l : LineString T)
  | linearRing (l : LinearRing T)
  | polygon (p : Polygon T)
  | multiGeometry (g : MultiGeometry T)
  | placemark (p : Placemark T)
  | style (s : Style F)
  | styleMap (s : StyleMap)
  | pair (p : Pair)
  | balloonStyle (b : BalloonStyle)
  | iconStyle (i : IconStyle F)
  | icon (i : Icon)
  | labelStyle (l : LabelStyle F)
  | lineStyle (l : LineStyle F)
  | polyStyle (p : PolyStyle)
  | listStyle (l : ListStyle)
  | linkTypeIcon (i : LinkTypeIcon F)
  | link (l : Link F)
  | resourceMap (r : ResourceMap)
  | aliasNode (a : Alias)
  | schemaData (s : SchemaData)
  | simpleArrayData (s : SimpleArrayData)
  | simpleData (s : SimpleData)
  | document (attrs : Attrs) (elements : List (Kml T F))
  | folder (attrs : Attrs) (elements : List (Kml T F))
  | element (e : Element)

/-- `hash_map_as_attrs`: the attribute map in iteration order as a list of
key/value pairs.  On the list model this is the identity. -/
def hashMapAsAttrs (m : Attrs) : Attrs := m

/-- `write_text_element`: a `Start` tag with no attributes, the text, and
the matching `End` tag. -/
def writeTextElement (tag : String) (content : String) : List XEvent :=
  [XEvent.startE tag [], XEvent.textE content, XEvent.endE tag]

/-- Events of an `if let Some(v) = field { write_text_element(tag, v) }`
block: the element when the field is present, nothing otherwise. -/
def optTextElement (tag : String) : Option String → List XEvent
  | some s => writeTextElement tag s
  | none => []

section Writers

variable {T F : Type} (ts : T → String) (fs : F → String)

/-- `write_scale`. -/
def writeScale (s : Scale T) : List XEvent :=
  [XEvent.startE "Scale" []] ++
    writeTextElement "x" (ts s.x) ++
    writeTextElement "y" (ts s.y) ++
    writeTextElement "z" (ts s.z) ++
    [XEvent.endE "Scale"]

/-- `write_orientation`. -/
def writeOrientation (o : Orientation T) : List XEvent :=
  [XEvent.startE "Orientation" []] ++
    writeTextElement "roll" (ts o.roll) ++
    writeTextElement "tilt" (ts o.tilt) ++
    writeTextElement "heading" (ts o.heading) ++
    [XEvent.endE "Orientation"]

/-- `write_point`. -/
def writePoint (p : Point T) : List XEvent :=
  [XEvent.startE "Point" []] ++
    writeTextElement "extrude" (if p.extrude then "1" else "0") ++
    writeTextElement "altitudeMode" p.altitudeMode.str ++
    writeTextElement "coordinates" (Coord.str ts p.coord) ++
    [XEvent.endE "Point"]

/-- `write_location`. -/
def writeLocation (l : Location T) : List XEvent :=
  [XEvent.startE "Location" []] ++
    writeTextElement "longitude" (ts l.longitude) ++
    writeTextElement "latitude" (ts l.latitude) ++
    writeTextElement "altitude" (ts l.altitude) ++
    [XEvent.endE "Location"]

/-- `write_geom_props`: extrude and tessellate as `"1"`/`"0"`, the
altitude mode, then the coordinates element only when the coordinate list
is non-empty, newline-joined. -/
def writeGeomProps (props : GeomProps T) : List XEvent :=
  writeTextElement "extrude" (if props.extrude then "1" else "0") ++
    writeTextElement "tessellate" (if props.tessellate then "1" else "0") ++
    writeTextElement "altitudeMode" props.altitudeMode.str ++
    (if props.coords.isEmpty then []
     else
       writeTextElement "coordinates"
         (String.intercalate "\n" (props.coords.map (Coord.str ts))))

/-- `write_line_string`. -/
def writeLineString (l : LineString T) : List XEvent :=
  [XEvent.startE "LineString" []] ++
    writeGeomProps ts ⟨l.coords, l.altitudeMode, l.extrude, l.tessellate⟩ ++
    [XEvent.endE "LineString"]

/-- `write_linear_ring`. -/
def writeLinearRing (l : LinearRing T) : List XEvent :=
  [XEvent.startE "LinearRing" []] ++
    writeGeomProps ts ⟨l.coords, l.altitudeMode, l.extrude, l.tessellate⟩ ++
    [XEvent.endE "LinearRing"]

/-- `write_polygon`: the geometry-property block with an empty coordinate
list, the mandatory outer boundary wrapper, and the inner boundary wrapper
only when inner rings exist. -/
def writePolygon (p : Polygon T) : List XEvent :=
  [XEvent.startE "Polygon" (hashMapAsAttrs p.attrs)] ++
    writeGeomProps ts ⟨[], p.altitudeMode, p.extrude, p.tessellate⟩ ++
    [XEvent.startE "outerBoundaryIs" []] ++
    writeLinearRing ts p.outer ++
    [XEvent.endE "outerBoundaryIs"] ++
    (if p.inner.isEmpty then []
     else
       [XEvent.startE "innerBoundaryIs" []] ++
         (p.inner.map (writeLinearRing ts)).flatten ++
         [XEvent.endE "innerBoundaryIs"]) ++
    [XEvent.endE "Polygon"]

mutual

/-- `write_element` (recursive over the generic element tree). -/
def writeElement : Element → List XEvent
  | .mk name attrs content children =>
    XEvent.startE name (hashMapAsAttrs attrs) ::
      ((match content with
        | some c => [XEvent.textE c]
        | none => []) ++
        (writeElementList children ++ [XEvent.endE name]))

/-- The `for c in children` loop of `write_element`. -/
def writeElementList : List Element → List XEvent
  | [] => []
  | e :: es => writeElement e ++ writeElementList es

end

mutual

/-- `write_geometry`: the exhaustive-with-wildcard dispatcher.  The five
schema variants delegate to their writers; any other variant (the generic
element fallback) produces no events. -/
def writeGeometry : Geometry T → List XEvent
  | .point p => writePoint ts p
  | .lineString l => writeLineString ts l
  | .linearRing l => writeLinearRing ts l
  | .polygon p => writePolygon ts p
  | .multiGeometry gs attrs =>
    XEvent.startE "MultiGeometry" (hashMapAsAttrs attrs) ::
      (writeGeometryList gs ++ [XEvent.endE "MultiGeometry"])
  | .element _ => []

/-- The `for g in geometries` loop of `write_multi_geometry`. -/
def writeGeometryList : List (Geometry T) → List XEvent
  | [] => []
  | g :: gs => writeGeometry g ++ writeGeometryList gs

end

/-- `write_multi_geometry` on the `MultiGeometry` struct. -/
def writeMultiGeometrySt (m : MultiGeometry T) : List XEvent :=
  XEvent.startE "MultiGeometry" (hashMapAsAttrs m.attrs) ::
    (writeGeometryList ts m.geometries ++ [XEvent.endE "MultiGeometry"])

/-- `write_placemark`. -/
def writePlacemark (p : Placemark T) : List XEvent :=
  [XEvent.startE "Placemark" []] ++
    optTextElement "name" p.name ++
    optTextElement "description" p.description ++
    writeElementList p.children ++
    (match p.geometry with
     | some g => writeGeometry ts g
     | none => []) ++
    [XEvent.endE "Placemark"]

/-- `write_balloon_style`: `id` as a tag attribute, optional `bgColor`,
mandatory `textColor`, optional `text`, and `displayMode` `hide` only when
`display` is false. -/
def writeBalloonStyle (b : BalloonStyle) : List XEvent :=
  [XEvent.startE "BalloonStyle" [("id", b.id)]] ++
    optTextElement "bgColor" b.bgColor ++
    writeTextElement "textColor" b.textColor ++
    optTextElement "text" b.text ++
    (if b.display then [] else writeTextElement "displayMode" "hide") ++
    [XEvent.endE "BalloonStyle"]

/-- `write_icon` (simple href icon). -/
def writeIcon (i : Icon) : List XEvent :=
  [XEvent.startE "Icon" []] ++
    writeTextElement "href" i.href ++
    [XEvent.endE "Icon"]

/-- `write_icon_style`. -/
def writeIconStyle (i : IconStyle F) : List XEvent :=
  [XEvent.startE "IconStyle" [("id", i.id)]] ++
    writeTextElement "scale" (fs i.scale) ++
    writeTextElement "heading" (fs i.heading) ++
    (match i.hotSpot with
     | some h =>
       [XEvent.startE "hotSpot"
          [("x", fs h.x), ("y", fs h.y),
           ("xunits", h.xunits.str), ("yunits", h.yunits.str)],
        XEvent.endE "hotSpot"]
     | none => []) ++
    writeTextElement "color" i.color ++
    writeTextElement "colorMode" i.colorMode.str ++
    writeIcon i.icon ++
    [XEvent.endE "IconStyle"]

/-- `write_label_style`. -/
def writeLabelStyle (l : LabelStyle F) : List XEvent :=
  [XEvent.startE "LabelStyle" [("id", l.id)]] ++
    writeTextElement "color" l.color ++
    writeTextElement "colorMode" l.colorMode.str ++
    writeTextElement "scale" (fs l.scale) ++
    [XEvent.endE "LabelStyle"]

/-- `write_line_style`. -/
def writeLineStyle (l : LineStyle F) : List XEvent :=
  [XEvent.startE "LineStyle" [("id", l.id)]] ++
    writeTextElement "color" l.color ++
    writeTextElement "colorMode" l.colorMode.str ++
    writeTextElement "width" (fs l.width) ++
    [XEvent.endE "LineStyle"]

/-- `write_poly_style`: `fill` and `outline` are written with
`poly_style.fill.to_string()`, i.e. Rust's `bool` `Display`. -/
def writePolyStyle (p : PolyStyle) : List XEvent :=
  [XEvent.startE "PolyStyle" [("id", p.id)]] ++
    writeTextElement "color" p.color ++
    writeTextElement "colorMode" p.colorMode.str ++
    writeTextElement "fill" (rustBoolStr p.fill) ++
    writeTextElement "outline" (rustBoolStr p.outline) ++
    [XEvent.endE "PolyStyle"]

/-- `write_list_style`. -/
def writeListStyle (l : ListStyle) : List XEvent :=
  [XEvent.startE "ListStyle" [("id", l.id)]] ++
    writeTextElement "bgColor" l.bgColor ++
    writeTextElement "maxSnippetLines" (toString l.maxSnippetLines) ++
    [XEvent.endE "ListStyle"]

/-- `write_style`: each sub-style written only when present, in the fixed
order balloon, icon, label, line, poly, list. -/
def writeStyle (s : Style F) : List XEvent :=
  [XEvent.startE "Style" [("id", s.id)]] ++
    (match s.balloon with
     | some b => writeBalloonStyle b
     | none => []) ++
    (match s.icon with
     | some i => writeIconStyle fs i
     | none => []) ++
    (match s.label with
     | some l => writeLabelStyle fs l
     | none => []) ++
    (match s.line with
     | some l => writeLineStyle fs l
     | none => []) ++
    (match s.poly with
     | some p => writePolyStyle p
     | none => []) ++
    (match s.list with
     | some l => writeListStyle l
     | none => []) ++
    [XEvent.endE "Style"]

/-- `write_pair`. -/
def writePair (p : Pair) : List XEvent :=
  [XEvent.startE "Pair" (hashMapAsAttrs p.attrs)] ++
    writeTextElement "key" p.key ++
    writeTextElement "styleUrl" p.styleUrl ++
    [XEvent.endE "Pair"]

/-- `write_style_map`. -/
def writeStyleMap (s : StyleMap) : List XEvent :=
  [XEvent.startE "StyleMap" [("id", s.id)]] ++
    (s.pairs.map writePair).flatten ++
    [XEvent.endE "StyleMap"]

/-- `write_link_type_icon`: optional fields written only when present, in
schema order; `refreshInterval`, `viewRefreshTime` and `viewBoundScale`
written unconditionally. -/
def writeLinkTypeIcon (i : LinkTypeIcon F) : List XEvent :=
  [XEvent.startE "Icon" (hashMapAsAttrs i.attrs)] ++
    optTextElement "href" i.href ++
    (match i.refreshMode with
     | some m => writeTextElement "refreshMode" m.str
     | none => []) ++
    writeTextElement "refreshInterval" (fs i.refreshInterval) ++
    (match i.viewRefreshMode with
     | some m => writeTextElement "viewRefreshMode" m.str
     | none => []) ++
    writeTextElement "viewRefreshTime" (fs i.viewRefreshTime) ++
    writeTextElement "viewBoundScale" (fs i.viewBoundScale) ++
    optTextElement "viewFormat" i.viewFormat ++
    optTextElement "httpQuery" i.httpQuery ++
    [XEvent.endE "Icon"]

/-- `write_link`: same field schedule as the link-type icon, under the
`Link` tag. -/
def writeLink (l : Link F) : List XEvent :=
  [XEvent.startE "Link" (hashMapAsAttrs l.attrs)] ++
    optTextElement "href" l.href ++
    (match l.refreshMode with
     | some m => writeTextElement "refreshMode" m.str
     | none => []) ++
    writeTextElement "refreshInterval" (fs l.refreshInterval) ++
    (match l.viewRefreshMode with
     | some m => writeTextElement "viewRefreshMode" m.str
     | none => []) ++
    writeTextElement "viewRefreshTime" (fs l.viewRefreshTime) ++
    writeTextElement "viewBoundScale" (fs l.viewBoundScale) ++
    optTextElement "viewFormat" l.viewFormat ++
    optTextElement "httpQuery" l.httpQuery ++
    [XEvent.endE "Link"]

/-- `write_alias`. -/
def writeAlias (a : Alias) : List XEvent :=
  [XEvent.startE "Alias" (hashMapAsAttrs a.attrs)] ++
    optTextElement "targetHref" a.targetHref ++
    optTextElement "sourceHref" a.sourceHref ++
    [XEvent.endE "Alias"]

/-- `write_resource_map`. -/
def writeResourceMap (r : ResourceMap) : List XEvent :=
  [XEvent.startE "ResourceMap" (hashMapAsAttrs r.attrs)] ++
    (r.aliases.map writeAlias).flatten ++
    [XEvent.endE "ResourceMap"]

/-- `write_simple_data`: the value goes through the writer's raw byte
write, not a text event. -/
def writeSimpleData (s : SimpleData) : List XEvent :=
  [XEvent.startE "SimpleData" (hashMapAsAttrs s.attrs),
   XEvent.rawE s.value,
   XEvent.endE "SimpleData"]

/-- `write_simple_array_data`. -/
def writeSimpleArrayData (s : SimpleArrayData) : List XEvent :=
  [XEvent.startE "SimpleArrayData" (hashMapAsAttrs s.attrs)] ++
    (s.values.map (writeTextElement "value")).flatten ++
    [XEvent.endE "SimpleArrayData"]

/-- `write_schema_data`: all simple data, then all simple array data. -/
def writeSchemaData (s : SchemaData) : List XEvent :=
  [XEvent.startE "SchemaData" (hashMapAsAttrs s.attrs)] ++
    (s.data.map writeSimpleData).flatten ++
    (s.arrays.map writeSimpleArrayData).flatten ++
    [XEvent.endE "SchemaData"]

mutual

/-- `write_kml`: the exhaustive dispatcher over every `Kml` variant. -/
def writeKml : Kml T F → List XEvent
  | .kmlDocument attrs elements => writeContainer "kml" attrs elements
  | .scale s => writeScale ts s
  | .orientation o => writeOrientation ts o
  | .point p => writePoint ts p
  | .location l => writeLocation ts l
  | .lineString l => writeLineString ts l
  | .linearRing l => writeLinearRing ts l
  | .polygon p => writePolygon ts p
  | .multiGeometry g => writeMultiGeometrySt ts g
  | .placemark p => writePlacemark ts p
  | .style s => writeStyle fs s
  | .styleMap s => writeStyleMap s
  | .pair p => writePair p
  | .balloonStyle b => writeBalloonStyle b
  | .iconStyle i => writeIconStyle fs i
  | .icon i => writeIcon i
  | .labelStyle l => writeLabelStyle fs l
  | .lineStyle l => writeLineStyle fs l
  | .polyStyle p => writePolyStyle p
  | .listStyle l => writeListStyle l
  | .linkTypeIcon i => writeLinkTypeIcon fs i
  | .link l => writeLink fs l
  | .resourceMap r => writeResourceMap r
  | .aliasNode a => writeAlias a
  | .schemaData s => writeSchemaData s
  | .simpleArrayData s => writeSimpleArrayData s
  | .simpleData s => writeSimpleData s
  | .document attrs elements => writeContainer "Document" attrs elements
  | .folder attrs elements => writeContainer "Folder" attrs elements
  | .element e => writeElement e

/-- `write_container`: opening tag with the attribute map, each child
through the full dispatcher, closing tag. -/
def writeContainer (tag : String) (attrs : Attrs) (elements : List (Kml T F)) :
    List XEvent :=
  XEvent.startE tag (hashMapAsAttrs attrs) ::
    (writeKmlList elements ++ [XEvent.endE tag])

/-- The `for e in elements` loop of `write_container`. -/
def writeKmlList : List (Kml T F) → List XEvent
  | [] => []
  | k :: ks => writeKml k ++ writeKmlList ks

end

end Writers

/-- Tags of the `Start` events of a trace, in order.  Since every writer
emits matching `Start`/`End` pairs, this is the sequence of elements
opened, used to state field order and presence. -/
def startTags (es : List XEvent) : List String :=
  es.filterMap fun e =>
    match e with
    | .startE t _ => some t
    | _ => none

/-- Number of `Start` events with the given tag in a trace. -/
def countStart (tag : String) (es : List XEvent) : Nat :=
  (startTags es).count tag

/-- Tag list contributed by a presence-conditional field: the tag when the
field is set, nothing otherwise. -/
def presTag {α : Type} (o : Option α) (tag : String) : List String :=
  if o.isSome then [tag] else []

/-- A byte sink, as the writer sees it: each event write either succeeds
or fails (`std::io::Write` failure, surfaced as `Error::Io` through the
`?` operators of `writer.rs`). -/
structure Sink where
  accept : XEvent → Bool

/-- Feeding an event trace to a sink: stops with the propagated I/O error
at the first rejected write, succeeds otherwise.  This is the only error
source in `writer.rs` — every `?` is on a writer emission. -/
def runSink (s : Sink) : List XEvent → Except Unit Unit
  | [] => .ok ()
  | e :: es => if s.accept e then runSink s es else .error ()

/-- Feeding an event trace to a sink while accumulating the bytes
actually written; fails at the first rejected write. -/
def runSinkOut (s : Sink) : List XEvent → String → Except Unit String
  | [], acc => .ok acc
  | e :: es, acc =>
    if s.accept e then runSinkOut s es (acc ++ renderEvent e) else .error ()

/-- `KmlWriter::write` against a fallible sink: the fixed event trace of
the tree, fed to the sink. -/
def encodeE {T F : Type} (ts : T → String) (fs : F → String) (s : Sink)
    (k : Kml T F) : Except Unit Unit :=
  runSink s (writeKml ts fs k)

/-- `KmlWriter::write` against a fallible sink, observing the bytes the
sink received. -/
def encodeOut {T F : Type} (ts : T → String) (fs : F → String) (s : Sink)
    (k : Kml T F) : Except Unit String :=
  runSinkOut s (writeKml ts fs k) ""

/-- Decimal rendering of `Int`, matching Rust's integer `Display`; also
the `Display` of an `f64` holding the integral values the examples use
(Rust renders `4.0_f64` as `4` and `1.0_f64` as `1`). -/
def intDisplay (n : Int) : String := toString n

section Lemmas

variable {T F : Type} (ts : T → String) (fs : F → String)

theorem startTags_append (a b : List XEvent) :
    startTags (a ++ b) = startTags a ++ startTags b := by
  simp [startTags, List.filterMap_append]

theorem startTags_writeTextElement (t c : String) :
    startTags (writeTextElement t c) = [t] := rfl

theorem startTags_optTextElement (t : String) (o : Option String) :
    startTags (optTextElement t o) = presTag o t := by
  cases o <;> rfl

theorem startTags_writeGeomProps (gp : GeomProps T) :
    startTags (writeGeomProps ts gp) =
      ["extrude", "tessellate", "altitudeMode"] ++
        (if gp.coords.isEmpty then [] else ["coordinates"]) := by
  cases h : gp.coords.isEmpty <;> simp only [writeGeomProps, h] <;> rfl

theorem startTags_writeLineString (l : LineString T) :
    startTags (writeLineString ts l) =
      "LineString" :: (["extrude", "tessellate", "altitudeMode"] ++
        (if l.coords.isEmpty then [] else ["coordinates"])) := by
  cases h : l.coords.isEmpty <;> simp only [writeLineString, writeGeomProps, h] <;> rfl

theorem startTags_writeLinearRing (l : LinearRing T) :
    startTags (writeLinearRing ts l) =
      "LinearRing" :: (["extrude", "tessellate", "altitudeMode"] ++
        (if l.coords.isEmpty then [] else ["coordinates"])) := by
  cases h : l.coords.isEmpty <;> simp only [writeLinearRing, writeGeomProps, h] <;> rfl

theorem startTags_writePoint (p : Point T) :
    startTags (writePoint ts p) = ["Point", "extrude", "altitudeMode", "coordinates"] := rfl

theorem countStart_append (t : String) (a b : List XEvent) :
    countStart t (a ++ b) = countStart t a + countStart t b := by
  simp [countStart, startTags_append, List.count_append]

theorem countStart_eq_zero {t : String} {es : List XEvent}
    (h : t ∉ startTags es) : countStart t es = 0 :=
  List.count_eq_zero.mpr h

theorem countStart_writeLinearRing_boundary (l : LinearRing T)
    (t : String) (h : t = "outerBoundaryIs" ∨ t = "innerBoundaryIs") :
    countStart t (writeLinearRing ts l) = 0 := by
  apply countStart_eq_zero
  rw [startTags_writeLinearRing]
  rcases h with h | h <;> subst h <;> cases l.coords.isEmpty <;> decide

theorem countStart_coordinates_writeLinearRing (l : LinearRing T) :
    countStart "coordinates" (writeLinearRing ts l) =
      if l.coords.isEmpty then 0 else 1 := by
  simp only [countStart, startTags_writeLinearRing]
  cases l.coords.isEmpty <;> decide

theorem countStart_coordinates_writeGeomProps (gp : GeomProps T) :
    countStart "coordinates" (writeGeomProps ts gp) =
      if gp.coords.isEmpty then 0 else 1 := by
  simp only [countStart, startTags_writeGeomProps]
  cases gp.coords.isEmpty <;> decide

theorem countStart_flatten_map {α : Type} (t : String) (f : α → List XEvent)
    (l : List α) :
    countStart t ((l.map f).flatten) = (l.map fun a => countStart t (f a)).sum := by
  induction l with
  | nil => rfl
  | cons a l ih => simp [List.map_cons, List.flatten_cons, countStart_append, ih]

theorem countStart_outer_writeGeomProps (gp : GeomProps T) :
    countStart "outerBoundaryIs" (writeGeomProps ts gp) = 0 := by
  apply countStart_eq_zero
  rw [startTags_writeGeomProps]
  cases gp.coords.isEmpty <;> decide

theorem countStart_inner_writeGeomProps (gp : GeomProps T) :
    countStart "innerBoundaryIs" (writeGeomProps ts gp) = 0 := by
  apply countStart_eq_zero
  rw [startTags_writeGeomProps]
  cases gp.coords.isEmpty <;> decide

theorem countStart_outer_writeLinearRing (l : LinearRing T) :
    countStart "outerBoundaryIs" (writeLinearRing ts l) = 0 :=
  countStart_writeLinearRing_boundary ts l _ (Or.inl rfl)

theorem countStart_inner_writeLinearRing (l : LinearRing T) :
    countStart "innerBoundaryIs" (writeLinearRing ts l) = 0 :=
  countStart_writeLinearRing_boundary ts l _ (Or.inr rfl)

theorem countStart_outer_flatten_inner (rs : List (LinearRing T)) :
    countStart "outerBoundaryIs" ((rs.map (writeLinearRing ts)).flatten) = 0 := by
  rw [countStart_flatten_map]
  apply List.sum_eq_zero
  intro x hx
  simp only [List.mem_map] at hx
  obtain ⟨r, _, rfl⟩ := hx
  exact countStart_outer_writeLinearRing ts r

theorem countStart_inner_flatten_inner (rs : List (LinearRing T)) :
    countStart "innerBoundaryIs" ((rs.map (writeLinearRing ts)).flatten) = 0 := by
  rw [countStart_flatten_map]
  apply List.sum_eq_zero
  intro x hx
  simp only [List.mem_map] at hx
  obtain ⟨r, _, rfl⟩ := hx
  exact countStart_inner_writeLinearRing ts r

theorem writeGeometryList_eq_flatten (gs : List (Geometry T)) :
    writeGeometryList ts gs = (gs.map (writeGeometry ts)).flatten := by
  induction gs with
  | nil => rfl
  | cons g gs ih => simp [writeGeometryList, ih]

end Lemmas

/-- Claim C5: for every LineString, LinearRing and Polygon the shared
geometry properties appear in the fixed order extrude, tessellate,
altitudeMode, coordinates; for every Point they appear as extrude,
altitudeMode, coordinates; and the concrete Point
`{coord: (1,1,Some 1), altitudeMode: relativeToGround}` renders exactly
to the spec's byte string. -/
theorem geom_prop_order_c5 :
    (∀ (T : Type) (ts : T → String) (gp : GeomProps T),
      startTags (writeGeomProps ts gp) =
        ["extrude", "tessellate", "altitudeMode"] ++
          (if gp.coords.isEmpty then [] else ["coordinates"])) ∧
    (∀ (T : Type) (ts : T → String) (l : LineString T),
      startTags (writeLineString ts l) =
        "LineString" :: (["extrude", "tessellate", "altitudeMode"] ++
          (if l.coords.isEmpty then [] else ["coordinates"]))) ∧
    (∀ (T : Type) (ts : T → String) (l : LinearRing T),
      startTags (writeLinearRing ts l) =
        "LinearRing" :: (["extrude", "tessellate", "altitudeMode"] ++
          (if l.coords.isEmpty then [] else ["coordinates"]))) ∧
    (∀ (T : Type) (ts : T → String) (p : Polygon T),
      (startTags (writePolygon ts p)).take 4 =
        ["Polygon", "extrude", "tessellate", "altitudeMode"]) ∧
    (∀ (T : Type) (ts : T → String) (p : Point T),
      startTags (writePoint ts p) = ["Point", "extrude", "altitudeMode", "coordinates"]) ∧
    render (writePoint intDisplay ⟨⟨1, 1, some 1⟩, false, .relativeToGround⟩) =
      "<Point><extrude>0</extrude><altitudeMode>relativeToGround</altitudeMode><coordinates>1,1,1</coordinates></Point>" := by
  refine ⟨fun T ts gp => startTags_writeGeomProps ts gp,
    fun T ts l => startTags_writeLineString ts l,
    fun T ts l => startTags_writeLinearRing ts l,
    fun T ts p => ?_,
    fun T ts p => startTags_writePoint ts p,
    by decide⟩
  simp [writePolygon, writeGeomProps, startTags_append, startTags,
    writeTextElement, hashMapAsAttrs]

/-- Claim C8: each coordinate renders comma-joined with `z` optional
(`1,1,Some 1 ↦ "1,1,1"`, `1,1,None ↦ "1,1"`), and a non-empty coordinate
sequence is written as the newline-join of the coordinate strings. -/
theorem coordinates_text_c8 :
    (∀ (T : Type) (ts : T → String) (x y z : T),
      Coord.str ts ⟨x, y, some z⟩ = ts x ++ "," ++ ts y ++ "," ++ ts z) ∧
    (∀ (T : Type) (ts : T → String) (x y : T),
      Coord.str ts ⟨x, y, none⟩ = ts x ++ "," ++ ts y) ∧
    Coord.str intDisplay ⟨1, 1, some 1⟩ = "1,1,1" ∧
    Coord.str intDisplay ⟨1, 1, none⟩ = "1,1" ∧
    (∀ (T : Type) (ts : T → String) (gp : GeomProps T),
      gp.coords.isEmpty = false →
      XEvent.textE (String.intercalate "\n" (gp.coords.map (Coord.str ts))) ∈
        writeGeomProps ts gp) := by
  refine ⟨fun T ts x y z => rfl, fun T ts x y => rfl, by decide, by decide,
    fun T ts gp h => ?_⟩
  simp [writeGeomProps, h, writeTextElement]

/-- Witness for C8: a two-coordinate sequence is non-empty and its
coordinates text is the newline-join `"1,1,1\n2,2"`. -/
theorem coordinates_text_c8_witness :
    ([⟨1, 1, some 1⟩, ⟨2, 2, none⟩] : List (Coord Int)).isEmpty = false ∧
    XEvent.textE "1,1,1\n2,2" ∈
      writeGeomProps intDisplay
        ⟨[⟨1, 1, some 1⟩, ⟨2, 2, none⟩], .clampToGround, false, false⟩ := by
  have h := coordinates_text_c8.2.2.2.2 Int intDisplay
    ⟨[⟨1, 1, some 1⟩, ⟨2, 2, none⟩], .clampToGround, false, false⟩ rfl
  have e : String.intercalate "\n"
      (([⟨1, 1, some 1⟩, ⟨2, 2, none⟩] : List (Coord Int)).map
        (Coord.str intDisplay)) = "1,1,1\n2,2" := by decide
  exact ⟨rfl, by rw [e] at h; exact h⟩

/-- Claim C10: an empty coordinate sequence produces no `coordinates`
element in `write_geom_props`, `write_line_string` or `write_linear_ring`;
and every `coordinates` element of an encoded Polygon comes from its
boundary rings, since the Polygon's own property block is written with an
empty coordinate list. -/
theorem empty_coords_c10 :
    (∀ (T : Type) (ts : T → String) (gp : GeomProps T),
      countStart "coordinates" (writeGeomProps ts gp) =
        if gp.coords.isEmpty then 0 else 1) ∧
    (∀ (T : Type) (ts : T → String) (l : LineString T),
      countStart "coordinates" (writeLineString ts l) =
        if l.coords.isEmpty then 0 else 1) ∧
    (∀ (T : Type) (ts : T → String) (l : LinearRing T),
      countStart "coordinates" (writeLinearRing ts l) =
        if l.coords.isEmpty then 0 else 1) ∧
    (∀ (T : Type) (ts : T → String) (p : Polygon T),
      countStart "coordinates" (writePolygon ts p) =
        countStart "coordinates" (writeLinearRing ts p.outer) +
          (p.inner.map fun r => countStart "coordinates" (writeLinearRing ts r)).sum) := by
  refine ⟨fun T ts gp => countStart_coordinates_writeGeomProps ts gp,
    fun T ts l => ?_, fun T ts l => countStart_coordinates_writeLinearRing ts l,
    fun T ts p => ?_⟩
  · simp only [countStart, startTags_writeLineString]
    cases l.coords.isEmpty <;> decide
  · have h1 : countStart "coordinates"
        [XEvent.startE "Polygon" (hashMapAsAttrs p.attrs)] = 0 := rfl
    have h2 : countStart "coordinates" [XEvent.startE "outerBoundaryIs" []] = 0 := by
      decide
    have h3 : countStart "coordinates" [XEvent.endE "outerBoundaryIs"] = 0 := by decide
    have h4 : countStart "coordinates" [XEvent.endE "Polygon"] = 0 := by decide
    have h5 : countStart "coordinates" [XEvent.startE "innerBoundaryIs" []] = 0 := by
      decide
    have h6 : countStart "coordinates" [XEvent.endE "innerBoundaryIs"] = 0 := by decide
    simp only [writePolygon, countStart_append, h1, h2, h3, h4,
      countStart_coordinates_writeGeomProps, List.isEmpty_nil, if_true]
    cases h : p.inner.isEmpty with
    | true =>
      have hnil : p.inner = [] := List.isEmpty_iff.mp h
      simp [h, hnil, countStart, startTags]
    | false =>
      simp only [h, Bool.false_eq_true, if_false, countStart_append, h5, h6,
        countStart_flatten_map]
      omega

/-- Claim C6: every encoded Polygon opens exactly one `outerBoundaryIs`
wrapper, opens an `innerBoundaryIs` wrapper exactly when the inner-ring
list is non-empty, and its trace is the geometry-property block followed
by the outer ring in its wrapper, then the inner rings in list order
inside a single optional wrapper. -/
theorem polygon_boundaries_c6 :
    ∀ (T : Type) (ts : T → String) (p : Polygon T),
      countStart "outerBoundaryIs" (writePolygon ts p) = 1 ∧
      countStart "innerBoundaryIs" (writePolygon ts p) =
        (if p.inner.isEmpty then 0 else 1) ∧
      writePolygon ts p =
        [XEvent.startE "Polygon" p.attrs] ++
          writeGeomProps ts ⟨[], p.altitudeMode, p.extrude, p.tessellate⟩ ++
          ([XEvent.startE "outerBoundaryIs" []] ++ writeLinearRing ts p.outer ++
            [XEvent.endE "outerBoundaryIs"]) ++
          (if p.inner.isEmpty then []
           else
             [XEvent.startE "innerBoundaryIs" []] ++
               (p.inner.map (writeLinearRing ts)).flatten ++
               [XEvent.endE "innerBoundaryIs"]) ++
          [XEvent.endE "Polygon"] := by
  intro T ts p
  have s1 : countStart "outerBoundaryIs"
      [XEvent.startE "Polygon" (hashMapAsAttrs p.attrs)] = 0 := rfl
  have s2 : countStart "outerBoundaryIs" [XEvent.startE "outerBoundaryIs" []] = 1 := by
    decide
  have s3 : countStart "outerBoundaryIs" [XEvent.endE "outerBoundaryIs"] = 0 := by
    decide
  have s4 : countStart "outerBoundaryIs" [XEvent.endE "Polygon"] = 0 := by decide
  have s5 : countStart "outerBoundaryIs" [XEvent.startE "innerBoundaryIs" []] = 0 := by
    decide
  have s6 : countStart "outerBoundaryIs" [XEvent.endE "innerBoundaryIs"] = 0 := by
    decide
  have t1 : countStart "innerBoundaryIs"
      [XEvent.startE "Polygon" (hashMapAsAttrs p.attrs)] = 0 := rfl
  have t2 : countStart "innerBoundaryIs" [XEvent.startE "outerBoundaryIs" []] = 0 := by
    decide
  have t3 : countStart "innerBoundaryIs" [XEvent.endE "outerBoundaryIs"] = 0 := by
    decide
  have t4 : countStart "innerBoundaryIs" [XEvent.endE "Polygon"] = 0 := by decide
  have t5 : countStart "innerBoundaryIs" [XEvent.startE "innerBoundaryIs" []] = 1 := by
    decide
  have t6 : countStart "innerBoundaryIs" [XEvent.endE "innerBoundaryIs"] = 0 := by
    decide
  refine ⟨?_, ?_, ?_⟩
  · simp only [writePolygon, countStart_append, s1, s2, s3, s4,
      countStart_outer_writeGeomProps, countStart_outer_writeLinearRing]
    cases h : p.inner.isEmpty with
    | true => simp [h, countStart, startTags]
    | false =>
      simp only [h, Bool.false_eq_true, if_false, countStart_append, s5, s6,
        countStart_outer_flatten_inner]
  · simp only [writePolygon, countStart_append, t1, t2, t3, t4,
      countStart_inner_writeGeomProps, countStart_inner_writeLinearRing]
    cases h : p.inner.isEmpty with
    | true => simp [h, countStart, startTags]
    | false =>
      simp only [h, Bool.false_eq_true, if_false, countStart_append, t5, t6,
        countStart_inner_flatten_inner]
  · simp [writePolygon, hashMapAsAttrs, List.append_assoc]

/-- Claim C7: MultiGeometry recurses into the full geometry dispatcher for
each member in order, and a geometry variant outside the dispatcher's
explicit arms (the generic-element variant) produces no events and no
error at any sink. -/
theorem multi_geometry_dispatch_c7 :
    (∀ (T : Type) (ts : T → String) (m : MultiGeometry T),
      writeMultiGeometrySt ts m =
        XEvent.startE "MultiGeometry" m.attrs ::
          ((m.geometries.map (writeGeometry ts)).flatten ++
            [XEvent.endE "MultiGeometry"])) ∧
    (∀ (T : Type) (ts : T → String) (gs : List (Geometry T)) (attrs : Attrs),
      writeGeometry ts (.multiGeometry gs attrs) =
        XEvent.startE "MultiGeometry" attrs ::
          ((gs.map (writeGeometry ts)).flatten ++ [XEvent.endE "MultiGeometry"])) ∧
    (∀ (T : Type) (ts : T → String) (e : Element),
      writeGeometry ts (.element e) = []) ∧
    (∀ (T : Type) (ts : T → String) (e : Element) (s : Sink),
      runSink s (writeGeometry ts (.element e)) = Except.ok ()) := by
  refine ⟨fun T ts m => ?_, fun T ts gs attrs => ?_, fun T ts e => ?_,
    fun T ts e s => ?_⟩
  · simp [writeMultiGeometrySt, writeGeometryList_eq_flatten, hashMapAsAttrs]
  · simp [writeGeometry, writeGeometryList_eq_flatten, hashMapAsAttrs]
  · simp [writeGeometry]
  · simp [writeGeometry, runSink]

/-- Counterexample to claim C2: a PolyStyle with `fill = false` and
`outline = true` is written with the boolean texts `"false"` and
`"true"`, and the texts `"0"`/`"1"` appear nowhere in its trace — so the
boolean fields of PolyStyle are not rendered as `"0"`/`"1"`. -/
theorem bool_rendering_c2_counterexample :
    XEvent.textE "false" ∈ writePolyStyle ⟨"sid", "ffffffff", .normal, false, true⟩ ∧
    XEvent.textE "true" ∈ writePolyStyle ⟨"sid", "ffffffff", .normal, false, true⟩ ∧
    XEvent.textE "0" ∉ writePolyStyle ⟨"sid", "ffffffff", .normal, false, true⟩ ∧
    XEvent.textE "1" ∉ writePolyStyle ⟨"sid", "ffffffff", .normal, false, true⟩ := by
  decide

/-- Claim C2 as amended: the boolean fields written by `write_point` and
`write_geom_props` (extrude, tessellate) render as `"0"`/`"1"`, but the
PolyStyle booleans `fill` and `outline` go through Rust's `bool`
`Display` and render as `"false"`/`"true"`, never `"0"`/`"1"`. -/
theorem bool_rendering_c2_amended :
    (∀ (T : Type) (ts : T → String) (gp : GeomProps T),
      (writeGeomProps ts gp)[1]? =
        some (XEvent.textE (if gp.extrude then "1" else "0")) ∧
      (writeGeomProps ts gp)[4]? =
        some (XEvent.textE (if gp.tessellate then "1" else "0"))) ∧
    (∀ (T : Type) (ts : T → String) (p : Point T),
      (writePoint ts p)[2]? =
        some (XEvent.textE (if p.extrude then "1" else "0"))) ∧
    (∀ ps : PolyStyle,
      (writePolyStyle ps)[8]? = some (XEvent.textE (rustBoolStr ps.fill)) ∧
      (writePolyStyle ps)[11]? = some (XEvent.textE (rustBoolStr ps.outline))) ∧
    rustBoolStr true = "true" ∧ rustBoolStr false = "false" ∧
    (∀ b : Bool, rustBoolStr b ≠ "0" ∧ rustBoolStr b ≠ "1") := by
  refine ⟨fun T ts gp => ⟨rfl, rfl⟩, fun T ts p => rfl,
    fun ps => ⟨rfl, rfl⟩, rfl, rfl, fun b => ?_⟩
  cases b <;> exact ⟨by decide, by decide⟩

/-- Counterexample to claim C3: a Link with every optional field absent
emits exactly three child fields (`refreshInterval`, `viewRefreshTime`,
`viewBoundScale`), not the four the claim says are always emitted. -/
theorem link_fields_c3_counterexample :
    startTags (writeLink intDisplay ⟨[], none, none, 4, none, 4, 1, none, none⟩) =
      ["Link", "refreshInterval", "viewRefreshTime", "viewBoundScale"] ∧
    (["refreshInterval", "viewRefreshTime", "viewBoundScale"] : List String).length ≠
      4 := by
  exact ⟨rfl, by decide⟩

set_option maxRecDepth 8192 in
/-- Claim C3 as amended: for every Link and every link-type Icon the
child fields appear in the fixed order href, refreshMode,
refreshInterval, viewRefreshMode, viewRefreshTime, viewBoundScale,
viewFormat, httpQuery, each emitted only when present except the three
fields with hard defaults (refreshInterval, viewRefreshTime,
viewBoundScale), which are always emitted; the spec's Link example
renders exactly as stated. -/
theorem link_field_schedule_c3_amended :
    (∀ (F : Type) (fs : F → String) (l : Link F),
      startTags (writeLink fs l) =
        "Link" :: (presTag l.href "href" ++ presTag l.refreshMode "refreshMode" ++
          ["refreshInterval"] ++ presTag l.viewRefreshMode "viewRefreshMode" ++
          ["viewRefreshTime", "viewBoundScale"] ++ presTag l.viewFormat "viewFormat" ++
          presTag l.httpQuery "httpQuery")) ∧
    (∀ (F : Type) (fs : F → String) (i : LinkTypeIcon F),
      startTags (writeLinkTypeIcon fs i) =
        "Icon" :: (presTag i.href "href" ++ presTag i.refreshMode "refreshMode" ++
          ["refreshInterval"] ++ presTag i.viewRefreshMode "viewRefreshMode" ++
          ["viewRefreshTime", "viewBoundScale"] ++ presTag i.viewFormat "viewFormat" ++
          presTag i.httpQuery "httpQuery")) ∧
    render (writeLink intDisplay
        ⟨[("id", "Some ID")], some "/path/to/local/resource", some .onChange, 4,
          some .onStop, 4, 1, none, none⟩) =
      "<Link id=\"Some ID\"><href>/path/to/local/resource</href><refreshMode>onChange</refreshMode><refreshInterval>4</refreshInterval><viewRefreshMode>onStop</viewRefreshMode><viewRefreshTime>4</viewRefreshTime><viewBoundScale>1</viewBoundScale></Link>" := by
  refine ⟨fun F fs l => ?_, fun F fs i => ?_, by decide⟩
  · obtain ⟨a, href, rm, ri, vrm, vrt, vbs, vf, hq⟩ := l
    cases href <;> cases rm <;> cases vrm <;> cases vf <;> cases hq <;>
      simp [writeLink, startTags, writeTextElement, optTextElement, presTag,
        hashMapAsAttrs]
  · obtain ⟨a, href, rm, ri, vrm, vrt, vbs, vf, hq⟩ := i
    cases href <;> cases rm <;> cases vrm <;> cases vf <;> cases hq <;>
      simp [writeLinkTypeIcon, startTags, writeTextElement, optTextElement, presTag,
        hashMapAsAttrs]

theorem runSink_ok_of_total (s : Sink) (h : ∀ e, s.accept e = true) :
    ∀ es : List XEvent, runSink s es = Except.ok () := by
  intro es
  induction es with
  | nil => rfl
  | cons e es ih => simp [runSink, h e, ih]

theorem runSink_error_mem (s : Sink) :
    ∀ es : List XEvent, runSink s es = Except.error () →
      ∃ e, e ∈ es ∧ s.accept e = false := by
  intro es
  induction es with
  | nil => intro h; simp [runSink] at h
  | cons e es ih =>
    intro h
    cases hc : s.accept e with
    | false => exact ⟨e, by simp, hc⟩
    | true =>
      rw [runSink, if_pos hc] at h
      obtain ⟨x, hx, ha⟩ := ih h
      exact ⟨x, by simp [hx], ha⟩

theorem runSinkOut_ok_of_total (s : Sink) (h : ∀ e, s.accept e = true) :
    ∀ (es : List XEvent) (acc : String),
      runSinkOut s es acc = Except.ok (acc ++ render es) := by
  intro es
  induction es with
  | nil => intro acc; simp [runSinkOut, render]
  | cons e es ih =>
    intro acc
    rw [runSinkOut, if_pos (h e), ih, render, String.append_assoc]

/-- Claim C4: encode returns an error only when a sink write fails; at a
sink that accepts every write it returns `Ok` for every constructible
tree — the traversal itself is total and has no structural error case. -/
theorem encode_io_error_only_c4 :
    ∀ (T F : Type) (ts : T → String) (fs : F → String) (s : Sink) (k : Kml T F),
      ((∀ e, s.accept e = true) → encodeE ts fs s k = Except.ok ()) ∧
      (encodeE ts fs s k = Except.error () →
        ∃ e, e ∈ writeKml ts fs k ∧ s.accept e = false) := by
  intro T F ts fs s k
  exact ⟨fun h => runSink_ok_of_total s h _, fun h => runSink_error_mem s _ h⟩

/-- Witness for C4: at the always-accepting sink a concrete Point tree
encodes to `Ok`, and at the always-rejecting sink the error implies a
rejected event of the trace exists. -/
theorem encode_io_error_only_c4_witness :
    encodeE intDisplay intDisplay ⟨fun _ => true⟩
      (Kml.point ⟨⟨1, 1, none⟩, false, .clampToGround⟩) = Except.ok () ∧
    ∃ e, e ∈ writeKml intDisplay intDisplay
        (Kml.point (⟨⟨1, 1, none⟩, false, .clampToGround⟩ : Point Int)) ∧
      (Sink.mk fun _ => false).accept e = false := by
  constructor
  · exact (encode_io_error_only_c4 Int Int intDisplay intDisplay ⟨fun _ => true⟩
      (Kml.point ⟨⟨1, 1, none⟩, false, .clampToGround⟩)).1 (fun _ => rfl)
  · apply (encode_io_error_only_c4 Int Int intDisplay intDisplay ⟨fun _ => false⟩
      (Kml.point ⟨⟨1, 1, none⟩, false, .clampToGround⟩)).2
    simp [encodeE, writeKml, writePoint, runSink]

/-- Claim C9: encoding is deterministic — the same unchanged tree fed to
any two sinks that accept all writes produces byte-identical output,
namely the rendering of the tree's fixed event trace (attribute order
included, since each node's attribute mapping is iterated in its fixed
per-instance order). -/
theorem encode_deterministic_c9 :
    ∀ (T F : Type) (ts : T → String) (fs : F → String) (s₁ s₂ : Sink)
      (k : Kml T F),
      (∀ e, s₁.accept e = true) → (∀ e, s₂.accept e = true) →
      encodeOut ts fs s₁ k = encodeOut ts fs s₂ k ∧
      encodeOut ts fs s₁ k = Except.ok (render (writeKml ts fs k)) := by
  intro T F ts fs s₁ s₂ k h₁ h₂
  have e₁ := runSinkOut_ok_of_total s₁ h₁ (writeKml ts fs k) ""
  have e₂ := runSinkOut_ok_of_total s₂ h₂ (writeKml ts fs k) ""
  rw [String.empty_append] at e₁ e₂
  exact ⟨by rw [encodeOut, encodeOut, e₁, e₂], by rw [encodeOut, e₁]⟩

/-- Claim C1 fails on the code (the spec's §9 open question flags exactly
this as a round-trip-fidelity risk): a MultiGeometry whose member list
holds a dispatcher-uncovered geometry variant encodes to the very same
event trace as the empty MultiGeometry, so the two distinct trees share
an encoding and no decoder whatsoever can satisfy
`decode(encode(tree)) = tree` on both — the dropped member is a child,
not an omitted field that defaults. -/
theorem round_trip_impossible_c1 :
    writeMultiGeometrySt intDisplay
        (⟨[Geometry.element ⟨"Foo", [], none, []⟩], []⟩ : MultiGeometry Int) =
      writeMultiGeometrySt intDisplay (⟨[], []⟩ : MultiGeometry Int) ∧
    (⟨[Geometry.element ⟨"Foo", [], none, []⟩], []⟩ : MultiGeometry Int) ≠
      (⟨[], []⟩ : MultiGeometry Int) ∧
    ∀ dec : List XEvent → Option (MultiGeometry Int),
      ¬(∀ m : MultiGeometry Int,
        dec (writeMultiGeometrySt intDisplay m) = some m) := by
  have henc : writeMultiGeometrySt intDisplay
      (⟨[Geometry.element ⟨"Foo", [], none, []⟩], []⟩ : MultiGeometry Int) =
      writeMultiGeometrySt intDisplay (⟨[], []⟩ : MultiGeometry Int) := by
    simp [writeMultiGeometrySt, writeGeometryList, writeGeometry]
  have hne : (⟨[Geometry.element ⟨"Foo", [], none, []⟩], []⟩ : MultiGeometry Int) ≠
      (⟨[], []⟩ : MultiGeometry Int) := by
    intro h
    have := congrArg MultiGeometry.geometries h
    simp at this
  refine ⟨henc, hne, fun dec hdec => ?_⟩
  have h0 := hdec ⟨[Geometry.element ⟨"Foo", [], none, []⟩], []⟩
  have h1 := hdec ⟨[], []⟩
  rw [henc, h1] at h0
  exact hne (Option.some.inj h0).symm

/-- Witness for C9: two always-accepting sinks produce the same output on
a concrete Point tree, namely its rendered trace. -/
theorem encode_deterministic_c9_witness :
    encodeOut intDisplay intDisplay ⟨fun _ => true⟩
        (Kml.point ⟨⟨1, 1, none⟩, false, .clampToGround⟩) =
      encodeOut intDisplay intDisplay ⟨fun _ => true⟩
        (Kml.point ⟨⟨1, 1, none⟩, false, .clampToGround⟩) ∧
    encodeOut intDisplay intDisplay ⟨fun _ => true⟩
        (Kml.point ⟨⟨1, 1, none⟩, false, .clampToGround⟩) =
      Except.ok (render (writeKml intDisplay intDisplay
        (Kml.point ⟨⟨1, 1, none⟩, false, .clampToGround⟩))) :=
  encode_deterministic_c9 Int Int intDisplay intDisplay
    ⟨fun _ => true⟩ ⟨fun _ => true⟩
    (Kml.point ⟨⟨1, 1, none⟩, false, .clampToGround⟩)
    (fun _ => rfl) (fun _ => rfl)

end KmlLib
